import Mathlib

/-!
Verification development for the salary-advance and loan backend
(`src/Backend/main.py` of micymike/classic-calculator).

The Python code is shallowly embedded over exact rationals (ℚ): Python
floats become ℚ (the spec's stated non-goal excludes precision guarantees
beyond 2-decimal rounding), Python exceptions become `Except` values, the
FastAPI `loans_db` dict becomes an explicit association list threaded
through `calculate_advance`, and the nondeterministic `uuid4()` /
`datetime.now()` become explicit `freshId` / `now` parameters.
-/

deriving instance DecidableEq for Except

/- Batteries marks the `Rat` arithmetic primitives `@[irreducible]`, which
prevents the `decide` tactic from evaluating concrete rational
computations. The sections below that check concrete runs re-mark them
`semireducible` locally; this does not change any definition. -/
set_option allowUnsafeReducibility true

/-- Python-level exceptions that the backend code can raise:
`ValueError msg` (raised explicitly for a bad `pay_frequency`, and by
pandas for a DataFrame column-length mismatch) and `ZeroDivisionError`
(float division by zero / `0.0 ** negative`). -/
inductive PyErr where
  | valueError (msg : String)
  | zeroDivisionError
  deriving DecidableEq

/-- HTTP-level errors produced by the endpoint wrappers in `main.py`:
`except ValueError` is re-raised as a 400 with the message as detail,
any other exception as a 500, and an unknown loan id as a 404. -/
inductive ApiError where
  | badRequest (detail : String)
  | internalError
  | notFound
  deriving DecidableEq

/-- `ApiError` corresponding to a Python exception escaping
`calculate_advance` (lines 176-179 of `main.py`). -/
def apiOfPy : PyErr → ApiError
  | .valueError msg => .badRequest msg
  | .zeroDivisionError => .internalError

/-- Round-half-to-even on ℚ, the rounding mode of Python's `round` and of
pandas `DataFrame.round`. -/
def roundHalfEven (q : ℚ) : ℤ :=
  let f := ⌊q⌋
  let r := q - f
  if r < 1/2 then f
  else if 1/2 < r then f + 1
  else if 2 ∣ f then f else f + 1

/-- `round(x, 2)` of Python / `.round(2)` of pandas, on exact rationals. -/
def round2 (q : ℚ) : ℚ := (roundHalfEven (q * 100) : ℚ) / 100

/-- Python float division: raises `ZeroDivisionError` on a zero divisor. -/
def pythonDiv (a b : ℚ) : Except PyErr ℚ :=
  if b = 0 then .error .zeroDivisionError else .ok (a / b)

/-- Python `**` with an integer-valued exponent: `0.0 ** n` with `n < 0`
raises `ZeroDivisionError`; otherwise the exact power. -/
def pythonZpow (b : ℚ) (e : ℤ) : Except PyErr ℚ :=
  if b = 0 ∧ e < 0 then .error .zeroDivisionError else .ok (b ^ e)

/-- `convert_to_monthly_salary` (`main.py` lines 39-49): converts a salary
quoted at `pay_frequency` to a monthly figure, raising
`ValueError("Invalid pay_frequency")` for any other frequency string. -/
def convert_to_monthly_salary (gross_salary : ℚ) (pay_frequency : String) :
    Except PyErr ℚ :=
  if pay_frequency = "Weekly" then .ok (gross_salary * 52 / 12)
  else if pay_frequency = "Bi-Weekly" then .ok (gross_salary * 26 / 12)
  else if pay_frequency = "Monthly" then .ok gross_salary
  else if pay_frequency = "Annually" then .ok (gross_salary / 12)
  else .error (.valueError "Invalid pay_frequency")

/-- The four recognized pay-frequency strings. -/
def validFreq (pay_frequency : String) : Prop :=
  pay_frequency = "Weekly" ∨ pay_frequency = "Bi-Weekly" ∨
  pay_frequency = "Monthly" ∨ pay_frequency = "Annually"

instance : Decidable (validFreq f) := by unfold validFreq; infer_instance

/-- `calculate_compound_interest` (`main.py` lines 52-62).
The Python code sets `t = term_months / 12`, `periods = n * t` (a float
equal to `term_months`) and computes `principal * (1 + rate/100/n) **
periods`; the integer-valued float exponent is embedded as `periods.num`
(`periods` has denominator 1, see `periods_num_eq`). -/
def calculate_compound_interest (principal rate : ℚ) (term_months : ℤ) :
    Except PyErr ℚ :=
  let n : ℚ := 12
  let t : ℚ := (term_months : ℚ) / 12
  let r := rate / 100
  let rate_per_period := r / n
  let periods : ℚ := n * t
  match pythonZpow (1 + rate_per_period) periods.num with
  | .error e => .error e
  | .ok v => .ok (round2 (principal * v))

theorem periods_num_eq (term_months : ℤ) :
    ((12 : ℚ) * ((term_months : ℚ) / 12)).num = term_months := by
  rw [mul_div_cancel₀ (b := (12 : ℚ)) ((term_months : ℚ)) (by norm_num)]
  exact Rat.num_intCast term_months

section

attribute [local semireducible] Rat.mul Rat.add Rat.sub Rat.div Rat.inv Rat.neg Rat.blt Rat.floor Rat.ofScientific

example : calculate_compound_interest 1000 12 12 = .ok (112683/100 : ℚ) := by decide

end

/-- One row of the amortization schedule DataFrame
(`Month`, `Payment`, `Principal`, `Interest`, `Balance`). -/
structure AmortRow where
  month : ℕ
  payment : ℚ
  principal : ℚ
  interest : ℚ
  balance : ℚ
  deriving DecidableEq

/-- The level-payment computation of `generate_amortization_schedule`
(`main.py` lines 66-71), before rounding:
`principal / term_months` when the monthly rate is zero, else
`principal * (mr * (1+mr)^term) / ((1+mr)^term - 1)`, with Python's
division-by-zero and `0.0 ** negative` semantics. -/
def paymentCalc (principal mr : ℚ) (term_months : ℤ) : Except PyErr ℚ :=
  if mr = 0 then pythonDiv principal (term_months : ℚ)
  else
    match pythonZpow (1 + mr) term_months with
    | .error e => .error e
    | .ok p => pythonDiv (principal * (mr * p)) (p - 1)

/-- The loop of `generate_amortization_schedule` (`main.py` lines 80-97),
iterating over the remaining months. The dead write at lines 82-83 (the
`Balance` cell is overwritten again at line 91 or 96 before being read)
is not represented. `remaining = 1` is the final month, where a positive
residual balance is folded into the last payment (lines 87-91); otherwise
the row keeps the level payment and the balance is clamped at 0
(lines 92-96), and the clamped balance is carried forward (line 97). -/
def amortLoop (mr monthly_payment : ℚ) :
    (balance : ℚ) → (month : ℕ) → (remaining : ℕ) → List AmortRow
  | _, _, 0 => []
  | b, m, r + 1 =>
    let interest := b * mr
    let principal_payment := min (monthly_payment - interest) b
    let b' := b - principal_payment
    if r = 0 ∧ 0 < b' then
      [⟨m, principal_payment + b', principal_payment + b' - interest, interest, 0⟩]
    else
      ⟨m, monthly_payment, principal_payment, interest, max 0 b'⟩ ::
        amortLoop mr monthly_payment (max 0 b') (m + 1) r

/-- The final `.round(2)` of `main.py` line 99, applied to one row. -/
def round2Row (row : AmortRow) : AmortRow :=
  ⟨row.month, round2 row.payment, round2 row.principal,
    round2 row.interest, round2 row.balance⟩

/-- `generate_amortization_schedule` (`main.py` lines 65-99). The payment
is computed and rounded first (lines 66-71); then the `pd.DataFrame`
construction at lines 74-78 raises `ValueError` ("All arrays must be of
the same length") whenever `term_months <= 0`, because the `Month` column
`range(1, term_months+1)` is empty while the `Balance` column
`[principal] + [0]*(term_months-1)` has one element; for a positive term
the loop fills the rows and line 99 rounds every column to 2 decimals. -/
def generate_amortization_schedule (principal rate : ℚ) (term_months : ℤ) :
    Except PyErr (List AmortRow) :=
  let monthly_rate := rate / 100 / 12
  match paymentCalc principal monthly_rate term_months with
  | .error e => .error e
  | .ok pay =>
    let monthly_payment := round2 pay
    if term_months ≤ 0 then
      .error (.valueError "All arrays must be of the same length")
    else
      .ok ((amortLoop monthly_rate monthly_payment principal 1
              term_months.toNat).map round2Row)

section

attribute [local semireducible] Rat.mul Rat.add Rat.sub Rat.div Rat.inv Rat.neg Rat.blt Rat.floor Rat.ofScientific

example :
    generate_amortization_schedule 1000 12 2 =
      .ok [⟨1, 50751/100, 49751/100, 10, 50249/100⟩,
           ⟨2, 50249/100, 49747/100, 502/100, 0⟩] := by decide

end

/-- How `DataFrame.to_csv` writes one float cell of the rounded schedule.
Every cell holds an integer number of cents; Python renders such a float
in its shortest repr, so trailing zeros of the fraction are dropped and a
whole number is written with a single `.0` (e.g. `10.0`, `502.49`,
`0.07`), never padded to two fraction digits. -/
def renderFloat2 (q : ℚ) : String :=
  let c : ℤ := ⌊q * 100⌋
  let sign := if c < 0 then "-" else ""
  let n := c.natAbs
  let ip := n / 100
  let fp := n % 100
  if fp = 0 then sign ++ toString ip ++ ".0"
  else if fp % 10 = 0 then sign ++ toString ip ++ "." ++ toString (fp / 10)
  else if fp < 10 then sign ++ toString ip ++ ".0" ++ toString fp
  else sign ++ toString ip ++ "." ++ toString fp

/-- One CSV line of `amortization_df.to_csv(csv_buffer, index=False)`:
the integer `Month` followed by the four monetary columns, in the column
order fixed at `main.py` line 99. -/
def renderRow (row : AmortRow) : String :=
  toString row.month ++ "," ++ renderFloat2 row.payment ++ "," ++
    renderFloat2 row.principal ++ "," ++ renderFloat2 row.interest ++ "," ++
    renderFloat2 row.balance ++ "\n"

/-- The full CSV text produced at `main.py` lines 137-138: a header line
and one line per schedule row, each terminated by a newline. -/
def scheduleToCsv (rows : List AmortRow) : String :=
  "Month,Payment,Principal,Interest,Balance\n" ++
    String.join (rows.map renderRow)

/-- `AdvanceRequest` (`main.py` lines 14-21). `gross_salary`,
`advance_amount` are floats, the loan fields optional, and
`include_amortization` defaults to false. -/
structure AdvanceRequest where
  gross_salary : ℚ
  pay_frequency : String
  advance_amount : ℚ
  loan_amount : Option ℚ := none
  interest_rate : Option ℚ := none
  loan_term : Option ℤ := none
  include_amortization : Bool := false
  deriving DecidableEq

/-- The decision payload returned by `calculate_advance` (dict literals at
`main.py` lines 111-118 and 164-174). The purely presentational `message`
string (lines 160-162) is not represented. -/
structure AdvanceResponse where
  eligible : Bool
  advance_approved : Bool
  max_advance : ℚ
  approved_amount : ℚ
  fee : ℚ
  total_repayable : Option ℚ := none
  amortization_schedule : Option (List AmortRow) := none
  loan_id : Option String := none
  deriving DecidableEq

/-- The `loan_record` dict stored in `loans_db` (`main.py` lines 144-156).
`timestamp` holds the `datetime.now().isoformat()` string, passed in as
an explicit parameter of the embedding. -/
structure LoanRecord where
  loan_id : String
  advance_amount : ℚ
  fee : ℚ
  timestamp : String
  gross_salary : ℚ
  pay_frequency : String
  loan_amount : Option ℚ
  interest_rate : Option ℚ
  loan_term : Option ℤ
  total_repayable : Option ℚ
  amortization_schedule : Option (List AmortRow)
  deriving DecidableEq

/-- The in-memory `loans_db` dict (`main.py` line 36), as an association
list from loan id to record. -/
def LedgerState := List (String × LoanRecord)

deriving instance DecidableEq for LedgerState

/-- The two possible successful results of `POST /calculate_advance`:
the structured decision dict, or (on the CSV-export short-circuit at
`main.py` line 139) just the CSV text and fixed filename. -/
inductive CalcResult where
  | decision (d : AdvanceResponse)
  | csvExport (csv_data filename : String)
  deriving DecidableEq

/-- Truthiness test of `main.py` line 131:
`request.loan_amount and request.interest_rate and request.loan_term`.
`None` and zero values are falsy; when all three are truthy the loan
parameters are returned. -/
def loanFields (req : AdvanceRequest) : Option (ℚ × ℚ × ℤ) :=
  match req.loan_amount, req.interest_rate, req.loan_term with
  | some la, some ir, some lt =>
    if la ≠ 0 ∧ ir ≠ 0 ∧ lt ≠ 0 then some (la, ir, lt) else none
  | _, _, _ => none

instance : DecidableEq LedgerState := by unfold LedgerState; infer_instance

/-- The fee rule of `main.py` line 126 (approved case):
`max(10.0, min(50.0, advance_amount * 0.05))`. -/
def feeOf (req : AdvanceRequest) : ℚ :=
  max 10 (min 50 (req.advance_amount * 0.05))

/-- The early "ineligible" response of `main.py` lines 111-118: every
numeric field zeroed, no loan fields, no loan id. -/
def ineligibleResponse : AdvanceResponse :=
  { eligible := false, advance_approved := false, max_advance := 0,
    approved_amount := 0, fee := 0 }

/-- The response assembled at lines 164-174 when the advance is rejected
(`advance_approved = False`): fee and approved amount are 0 (lines
125-126), no loan math ran (lines 129-131) and no record was stored. -/
def rejectedResponse (max_advance : ℚ) : AdvanceResponse :=
  { eligible := true, advance_approved := false, max_advance := max_advance,
    approved_amount := 0, fee := 0 }

/-- The `loan_record` dict built at `main.py` lines 144-156 for an
approved advance: a snapshot of the request fields together with the fee
and the loan computation results. -/
def approvedRecord (freshId now : String) (req : AdvanceRequest)
    (total_repayable : Option ℚ)
    (amortization_schedule : Option (List AmortRow)) : LoanRecord :=
  { loan_id := freshId, advance_amount := req.advance_amount,
    fee := feeOf req, timestamp := now,
    gross_salary := req.gross_salary, pay_frequency := req.pay_frequency,
    loan_amount := req.loan_amount, interest_rate := req.interest_rate,
    loan_term := req.loan_term, total_repayable := total_repayable,
    amortization_schedule := amortization_schedule }

/-- The response dict assembled at `main.py` lines 164-174 for an
approved advance. -/
def approvedResponse (freshId : String) (req : AdvanceRequest)
    (max_advance : ℚ) (total_repayable : Option ℚ)
    (amortization_schedule : Option (List AmortRow)) : AdvanceResponse :=
  { eligible := true, advance_approved := true, max_advance := max_advance,
    approved_amount := req.advance_amount, fee := feeOf req,
    total_repayable := total_repayable,
    amortization_schedule := amortization_schedule,
    loan_id := some freshId }

/-- Steps 5-6 of `calculate_advance` for an approved advance (`main.py`
lines 141-174): build the `loan_record`, store it under the fresh id, and
assemble the response dict. -/
def approvedResult (db : LedgerState) (freshId now : String)
    (req : AdvanceRequest) (max_advance : ℚ) (total_repayable : Option ℚ)
    (amortization_schedule : Option (List AmortRow)) :
    Except ApiError (CalcResult × LedgerState) :=
  .ok (.decision
    (approvedResponse freshId req max_advance total_repayable
      amortization_schedule),
    (freshId, approvedRecord freshId now req total_repayable
      amortization_schedule) :: db)

/-- `POST /calculate_advance` (`main.py` lines 102-179). The shared
`loans_db` state is threaded explicitly; `freshId` stands for the
`uuid.uuid4()` string and `now` for the `datetime.now().isoformat()`
timestamp. A Python `ValueError` surfaces as a 400 with its message and
any other exception as a 500 (lines 176-179). -/
def calculate_advance (db : LedgerState) (freshId now : String)
    (req : AdvanceRequest) (export_csv : Bool) :
    Except ApiError (CalcResult × LedgerState) :=
  match convert_to_monthly_salary req.gross_salary req.pay_frequency with
  | .error e => .error (apiOfPy e)
  | .ok monthly_salary =>
    if monthly_salary < 1000 then .ok (.decision ineligibleResponse, db)
    else
      let max_advance := monthly_salary * 0.5
      if req.advance_amount ≤ max_advance then
        match loanFields req with
        | none => approvedResult db freshId now req max_advance none none
        | some (la, ir, lt) =>
          match calculate_compound_interest la ir lt with
          | .error e => .error (apiOfPy e)
          | .ok total_repayable =>
            if req.include_amortization || export_csv then
              match generate_amortization_schedule la ir lt with
              | .error e => .error (apiOfPy e)
              | .ok sched =>
                if export_csv then
                  .ok (.csvExport (scheduleToCsv sched)
                        "amortization_schedule.csv", db)
                else
                  approvedResult db freshId now req max_advance
                    (some total_repayable) (some sched)
            else
              approvedResult db freshId now req max_advance
                (some total_repayable) none
      else .ok (.decision (rejectedResponse max_advance), db)

/-- `GET /loan/{loan_id}` (`main.py` lines 187-191): 404 when the id is
not in `loans_db`, otherwise the stored record. -/
def get_loan (db : LedgerState) (loan_id : String) :
    Except ApiError LoanRecord :=
  match List.lookup loan_id db with
  | none => .error .notFound
  | some record => .ok record

/-! ### Helper lemmas -/

section

attribute [local semireducible] Rat.mul Rat.add Rat.sub Rat.div Rat.inv Rat.neg Rat.blt Rat.floor Rat.ofScientific

theorem round2_zero : round2 0 = 0 := by decide

end

theorem roundHalfEven_nonneg {q : ℚ} (h : 0 ≤ q) : 0 ≤ roundHalfEven q := by
  have hf : (0 : ℤ) ≤ ⌊q⌋ := Int.floor_nonneg.mpr h
  unfold roundHalfEven
  dsimp only
  split
  · exact hf
  · split
    · omega
    · split <;> omega

theorem round2_nonneg {q : ℚ} (h : 0 ≤ q) : 0 ≤ round2 q := by
  have h1 : (0 : ℤ) ≤ roundHalfEven (q * 100) :=
    roundHalfEven_nonneg (by positivity)
  unfold round2
  have h2 : (0 : ℚ) ≤ (roundHalfEven (q * 100) : ℚ) := by exact_mod_cast h1
  positivity

/-- Every output of `round2` is an integer number of hundredths. -/
theorem round2_cents (q : ℚ) : ∃ z : ℤ, round2 q = z / 100 :=
  ⟨roundHalfEven (q * 100), rfl⟩

theorem amortLoop_length (mr mp : ℚ) :
    ∀ (r : ℕ) (b : ℚ) (m : ℕ), (amortLoop mr mp b m r).length = r := by
  intro r
  induction r with
  | zero => intro b m; simp [amortLoop]
  | succ n ih =>
    intro b m
    rw [amortLoop]
    split
    · next hcond => simp [hcond.1]
    · simp [ih]

theorem amortLoop_balance_nonneg (mr mp : ℚ) :
    ∀ (r : ℕ) (b : ℚ) (m : ℕ),
      ∀ row ∈ amortLoop mr mp b m r, 0 ≤ row.balance := by
  intro r
  induction r with
  | zero => intro b m row hrow; simp [amortLoop] at hrow
  | succ n ih =>
    intro b m row hrow
    rw [amortLoop] at hrow
    split at hrow
    · simp at hrow
      subst hrow
      rfl
    · rw [List.mem_cons] at hrow
      rcases hrow with hrow | hrow
      · subst hrow
        exact le_max_left (0 : ℚ) _
      · exact ih _ _ _ hrow

/-- The residual after a month's principal payment is never negative:
`principal_payment = min(monthly_payment - interest, balance)` is at most
the balance. -/
theorem residual_nonneg (mr mp b : ℚ) :
    0 ≤ b - min (mp - b * mr) b :=
  sub_nonneg.mpr (min_le_right _ _)

theorem amortLoop_getLast (mr mp : ℚ) :
    ∀ (r : ℕ) (b : ℚ) (m : ℕ), r ≠ 0 →
      ∃ lastRow, (amortLoop mr mp b m r).getLast? = some lastRow ∧
        lastRow.balance = 0 := by
  intro r
  induction r with
  | zero => intro b m h; exact absurd rfl h
  | succ n ih =>
    intro b m _
    rw [amortLoop]
    split
    · exact ⟨_, rfl, rfl⟩
    · next hcond =>
      by_cases hn : n = 0
      · subst hn
        have hb' : 0 ≤ b - min (mp - b * mr) b := residual_nonneg mr mp b
        have hb'' : ¬ 0 < b - min (mp - b * mr) b := fun hlt => hcond ⟨rfl, hlt⟩
        have hb0 : b - min (mp - b * mr) b = 0 := le_antisymm (not_lt.mp hb'') hb'
        refine ⟨⟨m, mp, min (mp - b * mr) b, b * mr,
          max 0 (b - min (mp - b * mr) b)⟩, ?_, by simp [hb0]⟩
        simp [amortLoop]
      · obtain ⟨lastRow, hl, hb⟩ :=
          ih (max 0 (b - min (mp - b * mr) b)) (m + 1) hn
        refine ⟨lastRow, ?_, hb⟩
        rw [List.getLast?_cons, hl]
        rfl

theorem paymentCalc_ok (P mr : ℚ) (lt : ℤ) (hmr : 0 ≤ mr) (hlt : 1 ≤ lt) :
    ∃ v, paymentCalc P mr lt = .ok v := by
  unfold paymentCalc
  by_cases h : mr = 0
  · rw [if_pos h]
    unfold pythonDiv
    rw [if_neg (by
      intro hc
      have : lt = 0 := by exact_mod_cast hc
      omega)]
    exact ⟨_, rfl⟩
  · rw [if_neg h]
    have hz : pythonZpow (1 + mr) lt = .ok ((1 + mr) ^ lt) := by
      unfold pythonZpow
      rw [if_neg (fun hc => by omega)]
    rw [hz]
    unfold pythonDiv
    dsimp only
    have h1 : 1 < 1 + mr := by
      have : 0 < mr := lt_of_le_of_ne hmr (Ne.symm h)
      linarith
    have h2 : 1 < (1 + mr) ^ lt := by
      rw [show lt = (lt.toNat : ℤ) from (Int.toNat_of_nonneg (by omega)).symm,
        zpow_natCast]
      exact one_lt_pow₀ h1 (by omega)
    rw [if_neg (fun hc : (1 + mr) ^ lt - 1 = 0 => by
      have := sub_eq_zero.mp hc
      linarith)]
    exact ⟨_, rfl⟩

theorem generate_ok (P rate : ℚ) (lt : ℤ) (hr : 0 ≤ rate) (hlt : 1 ≤ lt) :
    ∃ mp, generate_amortization_schedule P rate lt =
      .ok ((amortLoop (rate / 100 / 12) mp P 1 lt.toNat).map round2Row) := by
  obtain ⟨v, hv⟩ := paymentCalc_ok P (rate / 100 / 12) lt (by positivity) hlt
  refine ⟨round2 v, ?_⟩
  unfold generate_amortization_schedule
  simp only [hv]
  rw [if_neg (by omega : ¬ lt ≤ 0)]

/-! ### Claims C3 and C4: amortization schedule and compound interest -/

/-- C3 (amended): for every principal > 0, annual rate ≥ 0 and loan term
≥ 1, `generate_amortization_schedule` succeeds, the schedule has exactly
`loan_term` rows, no row's Balance is negative, and the final row's
Balance is exactly 0. The monotone non-increase of the Balance column
asserted by the claim does not hold in general (see
`C3_balance_not_monotone`). -/
theorem C3_schedule_invariants (P rate : ℚ) (lt : ℤ)
    (_hP : 0 < P) (hr : 0 ≤ rate) (hlt : 1 ≤ lt) :
    ∃ sched lastRow,
      generate_amortization_schedule P rate lt = .ok sched ∧
      sched.length = lt.toNat ∧
      (∀ row ∈ sched, 0 ≤ row.balance) ∧
      sched.getLast? = some lastRow ∧ lastRow.balance = 0 := by
  obtain ⟨mp, hgen⟩ := generate_ok P rate lt hr hlt
  obtain ⟨lastRow, hlast, hbal⟩ :=
    amortLoop_getLast (rate / 100 / 12) mp lt.toNat P 1 (by omega)
  refine ⟨_, round2Row lastRow, hgen, ?_, ?_, ?_, ?_⟩
  · rw [List.length_map, amortLoop_length]
  · intro row hrow
    rw [List.mem_map] at hrow
    obtain ⟨pre, hpre, rfl⟩ := hrow
    exact round2_nonneg (amortLoop_balance_nonneg _ _ _ _ _ _ hpre)
  · rw [List.getLast?_map, hlast]
    rfl
  · show round2 lastRow.balance = 0
    rw [hbal, round2_zero]

/-- Witness for `C3_schedule_invariants` at principal 1000, rate 12%,
term 2 months. -/
theorem C3_schedule_invariants_witness :
    ∃ sched lastRow,
      generate_amortization_schedule 1000 12 2 = .ok sched ∧
      sched.length = (2 : ℤ).toNat ∧
      (∀ row ∈ sched, 0 ≤ row.balance) ∧
      sched.getLast? = some lastRow ∧ lastRow.balance = 0 :=
  C3_schedule_invariants 1000 12 2 (by norm_num) (by norm_num) (by norm_num)

/-- Balance of row `i` (0-based) of a schedule result; used to exhibit a
schedule whose Balance column is not monotonically non-increasing. -/
def schedBalanceAt (r : Except PyErr (List AmortRow)) (i : ℕ) : ℚ :=
  match r with
  | .ok rows => (rows.getD i ⟨0, 0, 0, 0, 0⟩).balance
  | .error _ => 0

section

attribute [local semireducible] Rat.mul Rat.add Rat.sub Rat.div Rat.inv Rat.neg Rat.blt Rat.floor Rat.ofScientific

/-- C3 counterexample: with principal 10.002, annual rate 2400% and term
10 (all satisfying the claim's hypotheses), the rounded monthly payment
(20.00) falls below the first month's interest (20.004), so the balance
grows: row 1 has Balance 10.01 and row 2 has Balance 10.02. The Balance
column is therefore not monotonically non-increasing. -/
theorem C3_balance_not_monotone :
    schedBalanceAt (generate_amortization_schedule (10002/1000) 2400 10) 0 <
      schedBalanceAt (generate_amortization_schedule (10002/1000) 2400 10) 1 := by
  decide

end

/-- C4: for every principal, annual rate (percent) and term ≥ 1,
`calculate_compound_interest` returns
`round2 (principal * (1 + (rate/100)/12) ^ term_months)` — the number of
compounding periods is exactly `term_months`, since
`periods = 12 * (term_months / 12) = term_months` exactly. -/
theorem C4_compound_interest (P rate : ℚ) (lt : ℤ) (hlt : 1 ≤ lt) :
    calculate_compound_interest P rate lt =
      .ok (round2 (P * (1 + (rate / 100) / 12) ^ lt.toNat)) := by
  unfold calculate_compound_interest
  simp only [periods_num_eq]
  have hz : pythonZpow (1 + rate / 100 / 12) lt =
      .ok ((1 + rate / 100 / 12) ^ lt) := by
    unfold pythonZpow
    rw [if_neg (fun hc => by omega)]
  rw [hz]
  dsimp only
  rw [show (1 + rate / 100 / 12) ^ lt = (1 + rate / 100 / 12) ^ lt.toNat from by
    rw [← zpow_natCast, Int.toNat_of_nonneg (by omega : (0 : ℤ) ≤ lt)]]

/-- Witness for `C4_compound_interest`: principal 1000, 12% annual rate,
12 months. -/
theorem C4_compound_interest_witness :
    calculate_compound_interest 1000 12 12 =
      .ok (round2 (1000 * (1 + ((12 : ℚ) / 100) / 12) ^ (12 : ℤ).toNat)) :=
  C4_compound_interest 1000 12 12 (by norm_num)

/-! ### Shape lemmas for `calculate_advance` -/

/-- Every successful decision result of `calculate_advance` comes from
one of the three decision-producing paths: ineligible (lines 110-118),
rejected (lines 123-126 with the dict at 164-174), or approved with an
optional loan computation (lines 128-174). -/
theorem calc_decision_cases (db : LedgerState) (fid now : String)
    (req : AdvanceRequest) (e : Bool) (d : AdvanceResponse)
    (db' : LedgerState)
    (h : calculate_advance db fid now req e = .ok (.decision d, db')) :
    ∃ m, convert_to_monthly_salary req.gross_salary req.pay_frequency
        = .ok m ∧
      ((m < 1000 ∧ d = ineligibleResponse ∧ db' = db) ∨
       (1000 ≤ m ∧ ¬ req.advance_amount ≤ m * 0.5 ∧
         d = rejectedResponse (m * 0.5) ∧ db' = db) ∨
       (1000 ≤ m ∧ req.advance_amount ≤ m * 0.5 ∧
         ∃ tr sched, d = approvedResponse fid req (m * 0.5) tr sched ∧
           db' = (fid, approvedRecord fid now req tr sched) :: db)) := by
  unfold calculate_advance at h
  cases hconv : convert_to_monthly_salary req.gross_salary req.pay_frequency with
  | error err =>
    rw [hconv] at h
    exact Except.noConfusion h
  | ok m =>
    simp only [hconv] at h
    refine ⟨m, rfl, ?_⟩
    by_cases hm : m < 1000
    · rw [if_pos hm] at h
      simp only [Except.ok.injEq, Prod.mk.injEq, CalcResult.decision.injEq] at h
      exact Or.inl ⟨hm, h.1.symm, h.2.symm⟩
    · rw [if_neg hm] at h
      by_cases ha : req.advance_amount ≤ m * 0.5
      · rw [if_pos ha] at h
        cases hlf : loanFields req with
        | none =>
          simp only [hlf] at h
          unfold approvedResult at h
          simp only [Except.ok.injEq, Prod.mk.injEq,
            CalcResult.decision.injEq] at h
          exact Or.inr (Or.inr ⟨not_lt.mp hm, ha, none, none,
            h.1.symm, h.2.symm⟩)
        | some trip =>
          obtain ⟨la, ir, lt⟩ := trip
          simp only [hlf] at h
          cases hci : calculate_compound_interest la ir lt with
          | error e2 =>
            rw [hci] at h
            exact Except.noConfusion h
          | ok tr0 =>
            simp only [hci] at h
            by_cases hia : (req.include_amortization || e) = true
            · rw [if_pos hia] at h
              cases hgen : generate_amortization_schedule la ir lt with
              | error e3 =>
                rw [hgen] at h
                exact Except.noConfusion h
              | ok sched =>
                simp only [hgen] at h
                by_cases hec : e = true
                · rw [if_pos hec] at h
                  simp only [Except.ok.injEq, Prod.mk.injEq] at h
                  exact CalcResult.noConfusion h.1
                · rw [if_neg hec] at h
                  unfold approvedResult at h
                  simp only [Except.ok.injEq, Prod.mk.injEq,
                    CalcResult.decision.injEq] at h
                  exact Or.inr (Or.inr ⟨not_lt.mp hm, ha, some tr0,
                    some sched, h.1.symm, h.2.symm⟩)
            · rw [if_neg hia] at h
              unfold approvedResult at h
              simp only [Except.ok.injEq, Prod.mk.injEq,
                CalcResult.decision.injEq] at h
              exact Or.inr (Or.inr ⟨not_lt.mp hm, ha, some tr0, none,
                h.1.symm, h.2.symm⟩)
      · rw [if_neg ha] at h
        simp only [Except.ok.injEq, Prod.mk.injEq,
          CalcResult.decision.injEq] at h
        exact Or.inr (Or.inl ⟨not_lt.mp hm, ha, h.1.symm, h.2.symm⟩)

/-- Every CSV result of `calculate_advance` comes from the export
short-circuit at `main.py` lines 136-139: the advance must be approved,
all three loan fields truthy, `export_csv` set, the loan computations
must have succeeded — and the ledger is left untouched. -/
theorem calc_csv_cases (db : LedgerState) (fid now : String)
    (req : AdvanceRequest) (e : Bool) (s f : String) (db' : LedgerState)
    (h : calculate_advance db fid now req e = .ok (.csvExport s f, db')) :
    ∃ m la ir lt tr sched,
      convert_to_monthly_salary req.gross_salary req.pay_frequency
        = .ok m ∧
      1000 ≤ m ∧ req.advance_amount ≤ m * 0.5 ∧
      loanFields req = some (la, ir, lt) ∧
      calculate_compound_interest la ir lt = .ok tr ∧
      e = true ∧
      generate_amortization_schedule la ir lt = .ok sched ∧
      s = scheduleToCsv sched ∧ f = "amortization_schedule.csv" ∧
      db' = db := by
  unfold calculate_advance at h
  cases hconv : convert_to_monthly_salary req.gross_salary req.pay_frequency with
  | error err =>
    rw [hconv] at h
    exact Except.noConfusion h
  | ok m =>
    simp only [hconv] at h
    by_cases hm : m < 1000
    · rw [if_pos hm] at h
      simp only [Except.ok.injEq, Prod.mk.injEq] at h
      exact CalcResult.noConfusion h.1
    · rw [if_neg hm] at h
      by_cases ha : req.advance_amount ≤ m * 0.5
      · rw [if_pos ha] at h
        cases hlf : loanFields req with
        | none =>
          simp only [hlf] at h
          unfold approvedResult at h
          simp only [Except.ok.injEq, Prod.mk.injEq] at h
          exact CalcResult.noConfusion h.1
        | some trip =>
          obtain ⟨la, ir, lt⟩ := trip
          simp only [hlf] at h
          cases hci : calculate_compound_interest la ir lt with
          | error e2 =>
            rw [hci] at h
            exact Except.noConfusion h
          | ok tr0 =>
            simp only [hci] at h
            by_cases hia : (req.include_amortization || e) = true
            · rw [if_pos hia] at h
              cases hgen : generate_amortization_schedule la ir lt with
              | error e3 =>
                rw [hgen] at h
                exact Except.noConfusion h
              | ok sched =>
                simp only [hgen] at h
                by_cases hec : e = true
                · rw [if_pos hec] at h
                  simp only [Except.ok.injEq, Prod.mk.injEq,
                    CalcResult.csvExport.injEq] at h
                  exact ⟨m, la, ir, lt, tr0, sched, rfl, not_lt.mp hm, ha,
                    rfl, hci, hec, hgen, h.1.1.symm, h.1.2.symm, h.2.symm⟩
                · rw [if_neg hec] at h
                  unfold approvedResult at h
                  simp only [Except.ok.injEq, Prod.mk.injEq] at h
                  exact CalcResult.noConfusion h.1
            · rw [if_neg hia] at h
              unfold approvedResult at h
              simp only [Except.ok.injEq, Prod.mk.injEq] at h
              exact CalcResult.noConfusion h.1
      · rw [if_neg ha] at h
        simp only [Except.ok.injEq, Prod.mk.injEq] at h
        exact CalcResult.noConfusion h.1


/-! ### Claims C5, C6, C7: eligibility, approval invariant, fee rule -/

/-- C5: a request is eligible exactly when the normalized monthly salary
is at least 1000 (so exactly 1000 is eligible); an ineligible request
immediately returns the zeroed decision (`max_advance = 0`,
`advance_approved = false`, `fee = 0`, no loan fields, no loan id) with
the ledger unchanged. -/
theorem C5_eligibility_threshold (db : LedgerState) (fid now : String)
    (req : AdvanceRequest) (e : Bool) (m : ℚ)
    (hconv : convert_to_monthly_salary req.gross_salary req.pay_frequency
      = .ok m) :
    (m < 1000 →
      calculate_advance db fid now req e
        = .ok (.decision ineligibleResponse, db)) ∧
    (∀ d db', calculate_advance db fid now req e = .ok (.decision d, db') →
      (d.eligible = true ↔ 1000 ≤ m)) := by
  constructor
  · intro hm
    unfold calculate_advance
    simp only [hconv]
    rw [if_pos hm]
  · intro d db' hrun
    obtain ⟨m', hconv', hcase⟩ := calc_decision_cases _ _ _ _ _ _ _ hrun
    rw [hconv] at hconv'
    injection hconv' with hm'
    subst hm'
    rcases hcase with ⟨hm, hd, _⟩ | ⟨hm, _, hd, _⟩ | ⟨hm, _, tr, sched, hd, _⟩
    · subst hd
      simp only [ineligibleResponse, Bool.false_eq_true, false_iff]
      exact not_le.mpr hm
    · subst hd
      simp only [rejectedResponse, true_iff]
      exact hm
    · subst hd
      simp only [approvedResponse, true_iff]
      exact hm

/-- Witness for `C5_eligibility_threshold`: a monthly salary of exactly
1000 is eligible, and a monthly salary of 500 short-circuits to the
zeroed ineligible decision. -/
theorem C5_eligibility_threshold_witness :
    ((500 : ℚ) < 1000 →
      calculate_advance [] "L1" "T1" ⟨500, "Monthly", 100, none, none, none, false⟩ false
        = .ok (.decision ineligibleResponse, [])) ∧
    (∀ d db',
      calculate_advance [] "L1" "T1" ⟨500, "Monthly", 100, none, none, none, false⟩ false
        = .ok (.decision d, db') → (d.eligible = true ↔ (1000 : ℚ) ≤ 500)) :=
  C5_eligibility_threshold [] "L1" "T1"
    ⟨500, "Monthly", 100, none, none, none, false⟩ false 500 (by rfl)

/-- C6: for every request with a nonnegative advance amount, any decision
satisfies `0 ≤ approved_amount ≤ max_advance`; for eligible decisions
`max_advance = monthly_salary * 0.5`, approval holds exactly when
`advance_amount ≤ max_advance`, and the approved amount is the requested
amount when approved and 0 otherwise. -/
theorem C6_approval_invariant (db : LedgerState) (fid now : String)
    (req : AdvanceRequest) (e : Bool) (m : ℚ) (d : AdvanceResponse)
    (db' : LedgerState)
    (hamt : 0 ≤ req.advance_amount)
    (hconv : convert_to_monthly_salary req.gross_salary req.pay_frequency
      = .ok m)
    (hrun : calculate_advance db fid now req e = .ok (.decision d, db')) :
    (0 ≤ d.approved_amount ∧ d.approved_amount ≤ d.max_advance) ∧
    (d.eligible = true →
      d.max_advance = m * 0.5 ∧
      (d.advance_approved = true ↔ req.advance_amount ≤ d.max_advance) ∧
      d.approved_amount
        = (if d.advance_approved = true then req.advance_amount else 0)) := by
  obtain ⟨m', hconv', hcase⟩ := calc_decision_cases _ _ _ _ _ _ _ hrun
  rw [hconv] at hconv'
  injection hconv' with hm'
  subst hm'
  rcases hcase with ⟨hm, hd, _⟩ | ⟨hm, ha, hd, _⟩ | ⟨hm, ha, tr, sched, hd, _⟩
  · subst hd
    refine ⟨⟨le_refl 0, le_refl 0⟩, ?_⟩
    intro habs
    exact absurd habs (by simp [ineligibleResponse])
  · subst hd
    refine ⟨⟨le_refl 0, by simp only [rejectedResponse]; positivity⟩, ?_⟩
    intro _
    refine ⟨rfl, ?_, ?_⟩
    · simp only [rejectedResponse, Bool.false_eq_true, false_iff]
      exact ha
    · simp [rejectedResponse]
  · subst hd
    refine ⟨⟨hamt, ha⟩, ?_⟩
    intro _
    exact ⟨rfl, by simp only [approvedResponse, true_iff]; exact ha,
      by simp [approvedResponse]⟩

section

attribute [local semireducible] Rat.mul Rat.add Rat.sub Rat.div Rat.inv Rat.neg Rat.blt Rat.floor Rat.ofScientific

/-- Witness for `C6_approval_invariant`: monthly salary 8000, advance
500, which is approved within the 4000 maximum. -/
theorem C6_approval_invariant_witness :
    (0 ≤ (approvedResponse "L1" ⟨8000, "Monthly", 500, none, none, none, false⟩
        (8000 * 0.5) none none).approved_amount ∧
      (approvedResponse "L1" ⟨8000, "Monthly", 500, none, none, none, false⟩
        (8000 * 0.5) none none).approved_amount ≤
      (approvedResponse "L1" ⟨8000, "Monthly", 500, none, none, none, false⟩
        (8000 * 0.5) none none).max_advance) ∧
    ((approvedResponse "L1" ⟨8000, "Monthly", 500, none, none, none, false⟩
        (8000 * 0.5) none none).eligible = true →
      (approvedResponse "L1" ⟨8000, "Monthly", 500, none, none, none, false⟩
        (8000 * 0.5) none none).max_advance = 8000 * 0.5 ∧
      ((approvedResponse "L1" ⟨8000, "Monthly", 500, none, none, none, false⟩
        (8000 * 0.5) none none).advance_approved = true ↔
        (500 : ℚ) ≤ (approvedResponse "L1"
          ⟨8000, "Monthly", 500, none, none, none, false⟩
          (8000 * 0.5) none none).max_advance) ∧
      (approvedResponse "L1" ⟨8000, "Monthly", 500, none, none, none, false⟩
        (8000 * 0.5) none none).approved_amount
        = (if (approvedResponse "L1"
            ⟨8000, "Monthly", 500, none, none, none, false⟩
            (8000 * 0.5) none none).advance_approved = true
          then (500 : ℚ) else 0)) :=
  C6_approval_invariant [] "L1" "T1"
    ⟨8000, "Monthly", 500, none, none, none, false⟩ false 8000
    (approvedResponse "L1" ⟨8000, "Monthly", 500, none, none, none, false⟩
      (8000 * 0.5) none none)
    [("L1", approvedRecord "L1" "T1"
      ⟨8000, "Monthly", 500, none, none, none, false⟩ none none)]
    (by norm_num) (by rfl) (by decide)

end

/-- C7: every decision's fee is
`max(10.0, min(50.0, advance_amount * 0.05))` when the advance is
approved and exactly 0 when it is not (whether ineligible or rejected). -/
theorem C7_fee_rule (db : LedgerState) (fid now : String)
    (req : AdvanceRequest) (e : Bool) (d : AdvanceResponse)
    (db' : LedgerState)
    (hrun : calculate_advance db fid now req e = .ok (.decision d, db')) :
    d.fee = (if d.advance_approved = true
      then max 10 (min 50 (req.advance_amount * 0.05)) else 0) := by
  obtain ⟨m, hconv, hcase⟩ := calc_decision_cases _ _ _ _ _ _ _ hrun
  rcases hcase with ⟨_, hd, _⟩ | ⟨_, _, hd, _⟩ | ⟨_, _, tr, sched, hd, _⟩
  · subst hd
    simp [ineligibleResponse]
  · subst hd
    simp [rejectedResponse]
  · subst hd
    simp [approvedResponse, feeOf]

section

attribute [local semireducible] Rat.mul Rat.add Rat.sub Rat.div Rat.inv Rat.neg Rat.blt Rat.floor Rat.ofScientific

/-- Witness for `C7_fee_rule`, checking the three spec examples by
running `calculate_advance` (monthly salary 8000, so the max advance is
4000): advance 100 gives fee 10.0 (5% clamped up), advance 2000 gives
fee 50.0 (5% clamped down), advance 500 gives fee 25.0 (unclamped). -/
theorem C7_fee_rule_witness :
    (approvedResponse "L1" ⟨8000, "Monthly", 100, none, none, none, false⟩
        (8000 * 0.5) none none).fee
      = (if (approvedResponse "L1"
            ⟨8000, "Monthly", 100, none, none, none, false⟩
            (8000 * 0.5) none none).advance_approved = true
        then max 10 (min 50 ((100 : ℚ) * 0.05)) else 0) ∧
    (approvedResponse "L2" ⟨8000, "Monthly", 2000, none, none, none, false⟩
        (8000 * 0.5) none none).fee
      = (if (approvedResponse "L2"
            ⟨8000, "Monthly", 2000, none, none, none, false⟩
            (8000 * 0.5) none none).advance_approved = true
        then max 10 (min 50 ((2000 : ℚ) * 0.05)) else 0) ∧
    (approvedResponse "L3" ⟨8000, "Monthly", 500, none, none, none, false⟩
        (8000 * 0.5) none none).fee
      = (if (approvedResponse "L3"
            ⟨8000, "Monthly", 500, none, none, none, false⟩
            (8000 * 0.5) none none).advance_approved = true
        then max 10 (min 50 ((500 : ℚ) * 0.05)) else 0) ∧
    max 10 (min 50 ((100 : ℚ) * 0.05)) = 10 ∧
    max 10 (min 50 ((2000 : ℚ) * 0.05)) = 50 ∧
    max 10 (min 50 ((500 : ℚ) * 0.05)) = 25 :=
  ⟨C7_fee_rule [] "L1" "T1" ⟨8000, "Monthly", 100, none, none, none, false⟩
      false _ [("L1", approvedRecord "L1" "T1"
        ⟨8000, "Monthly", 100, none, none, none, false⟩ none none)] (by decide),
   C7_fee_rule [] "L2" "T2" ⟨8000, "Monthly", 2000, none, none, none, false⟩
      false _ [("L2", approvedRecord "L2" "T2"
        ⟨8000, "Monthly", 2000, none, none, none, false⟩ none none)] (by decide),
   C7_fee_rule [] "L3" "T3" ⟨8000, "Monthly", 500, none, none, none, false⟩
      false _ [("L3", approvedRecord "L3" "T3"
        ⟨8000, "Monthly", 500, none, none, none, false⟩ none none)] (by decide),
   by decide, by decide, by decide⟩

end

/-! ### Claim C8: ledger round-trip -/

/-- C8: a loan id returned by an approved decision can be looked up in
the resulting ledger and yields the stored record with every field intact
(the request snapshot, fee, timestamp, and loan computation results), and
looking up any id that is not in the ledger fails with the 404
`NotFoundError`. -/
theorem C8_ledger_roundtrip :
    (∀ (db : LedgerState) (fid now : String) (req : AdvanceRequest)
        (e : Bool) (d : AdvanceResponse) (db' : LedgerState) (i : String),
      calculate_advance db fid now req e = .ok (.decision d, db') →
      d.loan_id = some i →
      ∃ r, get_loan db' i = .ok r ∧
        r.loan_id = i ∧ r.advance_amount = req.advance_amount ∧
        r.fee = d.fee ∧ r.timestamp = now ∧
        r.gross_salary = req.gross_salary ∧
        r.pay_frequency = req.pay_frequency ∧
        r.loan_amount = req.loan_amount ∧
        r.interest_rate = req.interest_rate ∧
        r.loan_term = req.loan_term ∧
        r.total_repayable = d.total_repayable ∧
        r.amortization_schedule = d.amortization_schedule) ∧
    (∀ (db : LedgerState) (i : String), List.lookup i db = none →
      get_loan db i = .error .notFound) := by
  constructor
  · intro db fid now req e d db' i hrun hid
    obtain ⟨m, hconv, hcase⟩ := calc_decision_cases _ _ _ _ _ _ _ hrun
    rcases hcase with ⟨_, hd, _⟩ | ⟨_, _, hd, _⟩ | ⟨_, _, tr, sched, hd, hdb⟩
    · subst hd
      exact absurd hid (by simp [ineligibleResponse])
    · subst hd
      exact absurd hid (by simp [rejectedResponse])
    · subst hd
      have hfid : fid = i := by
        simpa [approvedResponse] using hid
      subst hfid
      subst hdb
      refine ⟨approvedRecord fid now req tr sched, ?_, ?_⟩
      · simp [get_loan, List.lookup]
      · simp [approvedRecord, approvedResponse]
  · intro db i h
    unfold get_loan
    rw [h]

section

attribute [local semireducible] Rat.mul Rat.add Rat.sub Rat.div Rat.inv Rat.neg Rat.blt Rat.floor Rat.ofScientific

/-- Witness for `C8_ledger_roundtrip`: the record stored for an approved
8000-salary request is retrieved intact by its id, and looking up an
unknown id in the empty ledger yields the 404 error. -/
theorem C8_ledger_roundtrip_witness :
    (∃ r, get_loan [("L1", approvedRecord "L1" "T1"
        ⟨8000, "Monthly", 500, none, none, none, false⟩ none none)] "L1"
        = .ok r ∧
      r.loan_id = "L1" ∧ r.advance_amount = 500 ∧
      r.fee = (approvedResponse "L1"
        ⟨8000, "Monthly", 500, none, none, none, false⟩
        (8000 * 0.5) none none).fee ∧
      r.timestamp = "T1" ∧ r.gross_salary = 8000 ∧
      r.pay_frequency = "Monthly" ∧ r.loan_amount = none ∧
      r.interest_rate = none ∧ r.loan_term = none ∧
      r.total_repayable = (approvedResponse "L1"
        ⟨8000, "Monthly", 500, none, none, none, false⟩
        (8000 * 0.5) none none).total_repayable ∧
      r.amortization_schedule = (approvedResponse "L1"
        ⟨8000, "Monthly", 500, none, none, none, false⟩
        (8000 * 0.5) none none).amortization_schedule) ∧
    get_loan [] "unknown-id" = .error .notFound :=
  ⟨C8_ledger_roundtrip.1 [] "L1" "T1"
      ⟨8000, "Monthly", 500, none, none, none, false⟩ false _ _ "L1"
      (by decide) (by decide),
   C8_ledger_roundtrip.2 [] "unknown-id" (by decide)⟩

end

/-! ### Claim C1: ledger registration on approval -/

/-- Does a `calculate_advance` result hold a CSV export payload? -/
def resultIsCsv : Except ApiError (CalcResult × LedgerState) → Bool
  | .ok (.csvExport _ _, _) => true
  | _ => false

/-- The ledger state after a successful `calculate_advance` call. -/
def resultLedger : Except ApiError (CalcResult × LedgerState) →
    Option LedgerState
  | .ok (_, db) => some db
  | .error _ => none

/-- The `loan_id` field of a successful decision result (`none` for CSV
exports and errors, which carry no loan id at all). -/
def resultLoanId : Except ApiError (CalcResult × LedgerState) →
    Option String
  | .ok (.decision d, _) => d.loan_id
  | _ => none

/-- C1 (amended): for an eligible and approved request that completes
successfully, when the call returns a decision it always carries a fresh
loan id and prepends the loan record to the ledger — but when the
CSV-export short-circuit is taken (approved request, truthy loan fields,
`export_csv` set) the call returns before Step 5 of `main.py`, so no
record is registered and the ledger is unchanged. Ineligible or rejected
requests never produce a loan id and leave the ledger unchanged. -/
theorem C1_ledger_on_approval (db : LedgerState) (fid now : String)
    (req : AdvanceRequest) (e : Bool) (res : CalcResult)
    (db' : LedgerState) (m : ℚ)
    (hconv : convert_to_monthly_salary req.gross_salary req.pay_frequency
      = .ok m)
    (hrun : calculate_advance db fid now req e = .ok (res, db')) :
    (1000 ≤ m → req.advance_amount ≤ m * 0.5 →
      (∀ d, res = .decision d →
        d.loan_id = some fid ∧
        ∃ tr sched,
          db' = (fid, approvedRecord fid now req tr sched) :: db) ∧
      (∀ s f, res = .csvExport s f → db' = db)) ∧
    (¬ (1000 ≤ m ∧ req.advance_amount ≤ m * 0.5) →
      ∃ d, res = .decision d ∧ d.loan_id = none ∧ db' = db) := by
  cases res with
  | decision d =>
    obtain ⟨m', hconv', hcase⟩ := calc_decision_cases _ _ _ _ _ _ _ hrun
    rw [hconv] at hconv'
    injection hconv' with hm'
    subst hm'
    constructor
    · intro h1000 ha
      refine ⟨?_, fun s f hsf => CalcResult.noConfusion hsf⟩
      intro d' hd'
      injection hd' with hdd
      subst hdd
      rcases hcase with ⟨hm, _, _⟩ | ⟨_, ha2, _, _⟩ |
        ⟨_, _, tr, sched, hd, hdb⟩
      · exact absurd h1000 (not_le.mpr hm)
      · exact absurd ha ha2
      · subst hd
        exact ⟨by simp [approvedResponse], tr, sched, hdb⟩
    · intro hn
      rcases hcase with ⟨hm, hd, hdb⟩ | ⟨hm, ha2, hd, hdb⟩ |
        ⟨hm, ha2, tr, sched, hd, hdb⟩
      · exact ⟨d, rfl, by simp [hd, ineligibleResponse], hdb⟩
      · exact ⟨d, rfl, by simp [hd, rejectedResponse], hdb⟩
      · exact absurd ⟨hm, ha2⟩ hn
  | csvExport s f =>
    obtain ⟨m', la, ir, lt, tr, sched, hconv', h1000, ha, _, _, _, _, _, _,
      hdb⟩ := calc_csv_cases _ _ _ _ _ _ _ _ hrun
    rw [hconv] at hconv'
    injection hconv' with hm'
    subst hm'
    constructor
    · exact fun _ _ =>
        ⟨fun d hd => CalcResult.noConfusion hd, fun s' f' _ => hdb⟩
    · exact fun hn => absurd ⟨h1000, ha⟩ hn

section

attribute [local semireducible] Rat.mul Rat.add Rat.sub Rat.div Rat.inv Rat.neg Rat.blt Rat.floor Rat.ofScientific

/-- Witness for `C1_ledger_on_approval`: monthly salary 2400, advance
1200 (exactly the maximum, hence approved), no loan fields: the decision
carries loan id "LW" and the record is prepended to the empty ledger. -/
theorem C1_ledger_on_approval_witness :
    (approvedResponse "LW" ⟨2400, "Monthly", 1200, none, none, none, false⟩
      (2400 * 0.5) none none).loan_id = some "LW" ∧
    ∃ tr sched,
      ([("LW", approvedRecord "LW" "TW"
          ⟨2400, "Monthly", 1200, none, none, none, false⟩ none none)] :
        LedgerState)
        = ("LW", approvedRecord "LW" "TW"
            ⟨2400, "Monthly", 1200, none, none, none, false⟩ tr sched)
          :: [] :=
  ((C1_ledger_on_approval [] "LW" "TW"
      ⟨2400, "Monthly", 1200, none, none, none, false⟩ false
      (.decision (approvedResponse "LW"
        ⟨2400, "Monthly", 1200, none, none, none, false⟩ (2400 * 0.5)
        none none))
      [("LW", approvedRecord "LW" "TW"
        ⟨2400, "Monthly", 1200, none, none, none, false⟩ none none)]
      2400 (by rfl) (by decide)).1
    (by norm_num) (by norm_num)).1 _ rfl

/-- C1 counterexample: gross 4000 Monthly with advance 1000 is eligible
and approved (maximum 2000), the loan fields are present, and CSV export
is requested. The call returns the CSV payload with NO loan id and the
ledger unchanged (still empty); the same request without `export_csv`
does create a loan id. This refutes the claim that a LoanRecord is
registered "including when the caller requested CSV export". -/
theorem C1_csv_export_skips_ledger :
    resultIsCsv (calculate_advance [] "L1" "T1"
      ⟨4000, "Monthly", 1000, some 1000, some 12, some 2, false⟩ true)
      = true ∧
    resultLedger (calculate_advance [] "L1" "T1"
      ⟨4000, "Monthly", 1000, some 1000, some 12, some 2, false⟩ true)
      = some [] ∧
    resultLoanId (calculate_advance [] "L1" "T1"
      ⟨4000, "Monthly", 1000, some 1000, some 12, some 2, false⟩ true)
      = none ∧
    resultLoanId (calculate_advance [] "L1" "T1"
      ⟨4000, "Monthly", 1000, some 1000, some 12, some 2, false⟩ false)
      = some "L1" := by
  decide

end

/-! ### Claim C10: zero advance amount -/

/-- C10 (amended): an eligible request for an advance of exactly 0 is
approved (0 never exceeds the maximum), with approved amount 0 and fee
10.0 — the lower clamp applies even to a zero advance — and, whenever
the call returns a decision, a ledger entry under a fresh loan id is
still created. When the CSV-export short-circuit is taken instead
(truthy loan fields and `export_csv`), the ledger is left unchanged and
no loan id is produced. -/
theorem C10_zero_advance_fee (db : LedgerState) (fid now : String)
    (req : AdvanceRequest) (e : Bool) (res : CalcResult)
    (db' : LedgerState) (m : ℚ)
    (hconv : convert_to_monthly_salary req.gross_salary req.pay_frequency
      = .ok m)
    (hm : 1000 ≤ m)
    (hamt : req.advance_amount = 0)
    (hrun : calculate_advance db fid now req e = .ok (res, db')) :
    (∀ d, res = .decision d →
      d.advance_approved = true ∧ d.approved_amount = 0 ∧ d.fee = 10 ∧
      d.loan_id = some fid ∧
      ∃ tr sched,
        db' = (fid, approvedRecord fid now req tr sched) :: db) ∧
    (∀ s f, res = .csvExport s f → db' = db) := by
  have hfee : feeOf req = 10 := by
    unfold feeOf
    rw [hamt]
    norm_num
  cases res with
  | decision d =>
    obtain ⟨m', hconv', hcase⟩ := calc_decision_cases _ _ _ _ _ _ _ hrun
    rw [hconv] at hconv'
    injection hconv' with hm'
    subst hm'
    refine ⟨?_, fun s f hsf => CalcResult.noConfusion hsf⟩
    intro d' hd'
    injection hd' with hdd
    subst hdd
    rcases hcase with ⟨hlt, _, _⟩ | ⟨_, ha2, _, _⟩ |
      ⟨_, _, tr, sched, hd, hdb⟩
    · exact absurd hm (not_le.mpr hlt)
    · refine absurd ?_ ha2
      rw [hamt]
      nlinarith
    · subst hd
      refine ⟨rfl, ?_, ?_, rfl, tr, sched, hdb⟩
      · simp [approvedResponse, hamt]
      · simp [approvedResponse, hfee]
  | csvExport s f =>
    obtain ⟨m', la, ir, lt, tr, sched, _, _, _, _, _, _, _, _, _, hdb⟩ :=
      calc_csv_cases _ _ _ _ _ _ _ _ hrun
    exact ⟨fun d hd => CalcResult.noConfusion hd, fun s' f' _ => hdb⟩

section

attribute [local semireducible] Rat.mul Rat.add Rat.sub Rat.div Rat.inv Rat.neg Rat.blt Rat.floor Rat.ofScientific

/-- Witness for `C10_zero_advance_fee`: monthly salary 3000, advance 0,
no loan fields: approved, approved amount 0, fee 10, record stored. -/
theorem C10_zero_advance_fee_witness :
    (approvedResponse "LZ" ⟨3000, "Monthly", 0, none, none, none, false⟩
      (3000 * 0.5) none none).advance_approved = true ∧
    (approvedResponse "LZ" ⟨3000, "Monthly", 0, none, none, none, false⟩
      (3000 * 0.5) none none).approved_amount = 0 ∧
    (approvedResponse "LZ" ⟨3000, "Monthly", 0, none, none, none, false⟩
      (3000 * 0.5) none none).fee = 10 ∧
    (approvedResponse "LZ" ⟨3000, "Monthly", 0, none, none, none, false⟩
      (3000 * 0.5) none none).loan_id = some "LZ" ∧
    ∃ tr sched,
      ([("LZ", approvedRecord "LZ" "TZ"
          ⟨3000, "Monthly", 0, none, none, none, false⟩ none none)] :
        LedgerState)
        = ("LZ", approvedRecord "LZ" "TZ"
            ⟨3000, "Monthly", 0, none, none, none, false⟩ tr sched) :: [] :=
  (C10_zero_advance_fee [] "LZ" "TZ"
      ⟨3000, "Monthly", 0, none, none, none, false⟩ false
      (.decision (approvedResponse "LZ"
        ⟨3000, "Monthly", 0, none, none, none, false⟩ (3000 * 0.5)
        none none))
      [("LZ", approvedRecord "LZ" "TZ"
        ⟨3000, "Monthly", 0, none, none, none, false⟩ none none)]
      3000 (by rfl) (by norm_num) rfl (by decide)).1 _ rfl

/-- C10 counterexample: an eligible request (monthly salary 2000) with
advance amount 0, truthy loan fields and CSV export requested returns
only the CSV payload: no loan id is produced and the ledger stays empty,
refuting "a ledger entry and loan_id are still created" for every such
request. Without `export_csv` the same request does create the entry. -/
theorem C10_zero_advance_csv_no_ledger :
    resultIsCsv (calculate_advance [] "LC" "TC"
      ⟨2000, "Monthly", 0, some 100, some 12, some 1, false⟩ true) = true ∧
    resultLedger (calculate_advance [] "LC" "TC"
      ⟨2000, "Monthly", 0, some 100, some 12, some 1, false⟩ true)
      = some [] ∧
    resultLoanId (calculate_advance [] "LC" "TC"
      ⟨2000, "Monthly", 0, some 100, some 12, some 1, false⟩ true)
      = none ∧
    resultLoanId (calculate_advance [] "LC" "TC"
      ⟨2000, "Monthly", 0, some 100, some 12, some 1, false⟩ false)
      = some "LC" := by
  decide

end

/-! ### Claim C9: CSV export encoding -/

/-- Inversion for a successful schedule computation: the term was
positive, the schedule has one row per month, and every row is the
2-decimal rounding of a computed row. -/
theorem generate_ok_inv (P rate : ℚ) (lt : ℤ) (sched : List AmortRow)
    (h : generate_amortization_schedule P rate lt = .ok sched) :
    1 ≤ lt ∧ sched.length = lt.toNat ∧
    ∀ row ∈ sched, ∃ pre, row = round2Row pre := by
  unfold generate_amortization_schedule at h
  cases hp : paymentCalc P (rate / 100 / 12) lt with
  | error e =>
    simp only [hp] at h
    exact Except.noConfusion h
  | ok v =>
    simp only [hp] at h
    by_cases hlt : lt ≤ 0
    · rw [if_pos hlt] at h
      exact Except.noConfusion h
    · rw [if_neg hlt] at h
      injection h with h'
      refine ⟨by omega, ?_, ?_⟩
      · rw [← h', List.length_map, amortLoop_length]
      · intro row hrow
        rw [← h', List.mem_map] at hrow
        obtain ⟨pre, _, hpre⟩ := hrow
        exact ⟨pre, hpre.symm⟩

/-- Does a rendered cell (as a character list) have exactly two digits
after the decimal point, as the claim requires of every monetary
value? -/
def twoFracDigits (cell : List Char) : Bool :=
  match cell.splitOn '.' with
  | [_, frac] => frac.length == 2
  | _ => false

/-- Cell `j` (0-based) of line `i` of a delimited text, extracted by
splitting on newlines and commas. -/
def csvCell (s : String) (i j : ℕ) : List Char :=
  (((s.data.splitOn '\n').getD i []).splitOn ',').getD j []

/-- C9 (amended): a CSV export response consists of exactly the text
`scheduleToCsv sched` — the header line
`Month,Payment,Principal,Interest,Balance` followed by one rendered line
per amortization month — under the fixed filename
`amortization_schedule.csv`, with the ledger unchanged; the schedule has
one row per loan-term month and every monetary value in it is an integer
number of cents (rounded to 2 decimals), but the cells are rendered in
Python's shortest float notation, which drops trailing zeros (e.g.
`10.0`) rather than always printing two fraction digits (see
`C9_not_always_two_fraction_digits`). -/
theorem C9_csv_encoding (db : LedgerState) (fid now : String)
    (req : AdvanceRequest) (e : Bool) (s f : String) (db' : LedgerState)
    (hrun : calculate_advance db fid now req e
      = .ok (.csvExport s f, db')) :
    ∃ la ir lt sched,
      loanFields req = some (la, ir, lt) ∧
      generate_amortization_schedule la ir lt = .ok sched ∧
      s = "Month,Payment,Principal,Interest,Balance\n" ++
        String.join (sched.map renderRow) ∧
      f = "amortization_schedule.csv" ∧
      db' = db ∧
      1 ≤ lt ∧ sched.length = lt.toNat ∧
      (∀ row ∈ sched, ∃ zp zpr zi zb : ℤ,
        row.payment = zp / 100 ∧ row.principal = zpr / 100 ∧
        row.interest = zi / 100 ∧ row.balance = zb / 100) := by
  obtain ⟨m, la, ir, lt, tr, sched, _, _, _, hlf, _, _, hgen, hs, hf, hdb⟩ :=
    calc_csv_cases _ _ _ _ _ _ _ _ hrun
  obtain ⟨hlt, hlen, hround⟩ := generate_ok_inv _ _ _ _ hgen
  refine ⟨la, ir, lt, sched, hlf, hgen, hs, hf, hdb, hlt, hlen, ?_⟩
  intro row hrow
  obtain ⟨pre, hpre⟩ := hround row hrow
  obtain ⟨zp, hzp⟩ := round2_cents pre.payment
  obtain ⟨zpr, hzpr⟩ := round2_cents pre.principal
  obtain ⟨zi, hzi⟩ := round2_cents pre.interest
  obtain ⟨zb, hzb⟩ := round2_cents pre.balance
  subst hpre
  exact ⟨zp, zpr, zi, zb, hzp, hzpr, hzi, hzb⟩

section

attribute [local semireducible] Rat.mul Rat.add Rat.sub Rat.div Rat.inv Rat.neg Rat.blt Rat.floor Rat.ofScientific

/-- Witness for `C9_csv_encoding`: gross 4000 Monthly, advance 100, loan
1000 at 12% over 2 months, CSV export requested. -/
theorem C9_csv_encoding_witness :
    ∃ la ir lt sched,
      loanFields ⟨4000, "Monthly", 100, some 1000, some 12, some 2, false⟩
        = some (la, ir, lt) ∧
      generate_amortization_schedule la ir lt = .ok sched ∧
      ("Month,Payment,Principal,Interest,Balance\n1,507.51,497.51,10.0,502.49\n2,502.49,497.47,5.02,0.0\n" : String)
        = "Month,Payment,Principal,Interest,Balance\n" ++
          String.join (sched.map renderRow) ∧
      ("amortization_schedule.csv" : String) = "amortization_schedule.csv" ∧
      ([] : LedgerState) = [] ∧
      1 ≤ lt ∧ sched.length = lt.toNat ∧
      (∀ row ∈ sched, ∃ zp zpr zi zb : ℤ,
        row.payment = zp / 100 ∧ row.principal = zpr / 100 ∧
        row.interest = zi / 100 ∧ row.balance = zb / 100) :=
  C9_csv_encoding [] "L9" "T9"
    ⟨4000, "Monthly", 100, some 1000, some 12, some 2, false⟩ true
    "Month,Payment,Principal,Interest,Balance\n1,507.51,497.51,10.0,502.49\n2,502.49,497.47,5.02,0.0\n"
    "amortization_schedule.csv" [] (by decide)

/-- C9 counterexample: in the CSV produced for loan 1000 at 12% over 2
months, the Interest cell of the first data row reads `10.0` — one
fraction digit, not two — because pandas writes the rounded floats in
shortest-repr form. This refutes "every monetary value written as a
plain decimal number with exactly two fraction digits". -/
theorem C9_not_always_two_fraction_digits :
    calculate_advance [] "L9" "T9"
      ⟨4000, "Monthly", 100, some 1000, some 12, some 2, false⟩ true
      = .ok (.csvExport
        "Month,Payment,Principal,Interest,Balance\n1,507.51,497.51,10.0,502.49\n2,502.49,497.47,5.02,0.0\n"
        "amortization_schedule.csv", []) ∧
    csvCell "Month,Payment,Principal,Interest,Balance\n1,507.51,497.51,10.0,502.49\n2,502.49,497.47,5.02,0.0\n" 1 3
      = "10.0".data ∧
    twoFracDigits "10.0".data = false := by
  decide

end

/-! ### Claim C2: client-error characterization -/

theorem convert_valid (g : ℚ) (freq : String) (h : validFreq freq) :
    ∃ m, convert_to_monthly_salary g freq = .ok m := by
  rcases h with h | h | h | h <;> subst h <;> exact ⟨_, rfl⟩

theorem convert_invalid (g : ℚ) (freq : String) (h : ¬ validFreq freq) :
    convert_to_monthly_salary g freq =
      .error (.valueError "Invalid pay_frequency") := by
  unfold validFreq at h
  push_neg at h
  obtain ⟨h1, h2, h3, h4⟩ := h
  unfold convert_to_monthly_salary
  rw [if_neg h1, if_neg h2, if_neg h3, if_neg h4]

theorem loanFields_some_inv (req : AdvanceRequest) (la ir : ℚ) (lt : ℤ)
    (h : loanFields req = some (la, ir, lt)) :
    req.loan_amount = some la ∧ req.interest_rate = some ir ∧
    req.loan_term = some lt ∧ la ≠ 0 ∧ ir ≠ 0 ∧ lt ≠ 0 := by
  unfold loanFields at h
  cases hla : req.loan_amount with
  | none => simp only [hla] at h; exact Option.noConfusion h
  | some la' =>
    cases hir : req.interest_rate with
    | none => simp only [hla, hir] at h; exact Option.noConfusion h
    | some ir' =>
      cases hlt : req.loan_term with
      | none => simp only [hla, hir, hlt] at h; exact Option.noConfusion h
      | some lt' =>
        simp only [hla, hir, hlt] at h
        by_cases hcond : la' ≠ 0 ∧ ir' ≠ 0 ∧ lt' ≠ 0
        · rw [if_pos hcond] at h
          injection h with h'
          injection h' with e1 h''
          injection h'' with e2 e3
          subst e1; subst e2; subst e3
          exact ⟨rfl, rfl, rfl, hcond.1, hcond.2.1, hcond.2.2⟩
        · rw [if_neg hcond] at h
          exact Option.noConfusion h

/-- `calculate_compound_interest` raises (only) `ZeroDivisionError`, and
exactly when the monthly factor is 0 (`rate = -1200`) and the term is
negative, making Python evaluate `0.0 ** negative`. -/
theorem ci_error_char (la ir : ℚ) (lt : ℤ) (err : PyErr)
    (h : calculate_compound_interest la ir lt = .error err) :
    err = .zeroDivisionError ∧ 1 + ir / 100 / 12 = 0 ∧ lt < 0 := by
  unfold calculate_compound_interest at h
  simp only [periods_num_eq] at h
  unfold pythonZpow at h
  by_cases hc : 1 + ir / 100 / 12 = 0 ∧ lt < 0
  · rw [if_pos hc] at h
    injection h with h'
    exact ⟨h'.symm, hc⟩
  · rw [if_neg hc] at h
    exact Except.noConfusion h

theorem ci_ok_char (la ir : ℚ) (lt : ℤ)
    (hc : ¬ (1 + ir / 100 / 12 = 0 ∧ lt < 0)) :
    calculate_compound_interest la ir lt =
      .ok (round2 (la * (1 + ir / 100 / 12) ^ lt)) := by
  unfold calculate_compound_interest
  simp only [periods_num_eq]
  unfold pythonZpow
  rw [if_neg hc]

theorem ci_ok_not_degenerate (la ir : ℚ) (lt : ℤ) (v : ℚ)
    (h : calculate_compound_interest la ir lt = .ok v) :
    ¬ (1 + ir / 100 / 12 = 0 ∧ lt < 0) := by
  intro hc
  have herr : calculate_compound_interest la ir lt
      = .error .zeroDivisionError := by
    unfold calculate_compound_interest
    simp only [periods_num_eq]
    unfold pythonZpow
    rw [if_pos hc]
  rw [h] at herr
  exact Except.noConfusion herr

theorem paymentCalc_error_char (P mr : ℚ) (lt : ℤ) (err : PyErr)
    (h : paymentCalc P mr lt = .error err) : err = .zeroDivisionError := by
  unfold paymentCalc at h
  by_cases hmr : mr = 0
  · rw [if_pos hmr] at h
    unfold pythonDiv at h
    by_cases hz : (lt : ℚ) = 0
    · rw [if_pos hz] at h
      injection h with h'
      exact h'.symm
    · rw [if_neg hz] at h
      exact Except.noConfusion h
  · rw [if_neg hmr] at h
    unfold pythonZpow at h
    by_cases hb : 1 + mr = 0 ∧ lt < 0
    · rw [if_pos hb] at h
      injection h with h'
      exact h'.symm
    · rw [if_neg hb] at h
      dsimp only at h
      unfold pythonDiv at h
      by_cases hd : (1 + mr) ^ lt - 1 = 0
      · rw [if_pos hd] at h
        injection h with h'
        exact h'.symm
      · rw [if_neg hd] at h
        exact Except.noConfusion h

theorem paymentCalc_ok_den (P mr : ℚ) (lt : ℤ) (v : ℚ) (hmr : mr ≠ 0)
    (h : paymentCalc P mr lt = .ok v) : (1 + mr) ^ lt ≠ 1 := by
  intro h1
  unfold paymentCalc at h
  rw [if_neg hmr] at h
  unfold pythonZpow at h
  by_cases hb : 1 + mr = 0 ∧ lt < 0
  · rw [if_pos hb] at h
    exact Except.noConfusion h
  · rw [if_neg hb] at h
    dsimp only at h
    unfold pythonDiv at h
    rw [if_pos (by rw [h1]; ring)] at h
    exact Except.noConfusion h

theorem paymentCalc_ok_of (P mr : ℚ) (lt : ℤ) (hmr : mr ≠ 0)
    (hb : 1 + mr ≠ 0) (h1 : (1 + mr) ^ lt ≠ 1) :
    ∃ v, paymentCalc P mr lt = .ok v := by
  unfold paymentCalc
  rw [if_neg hmr]
  unfold pythonZpow
  rw [if_neg (fun hc => hb hc.1)]
  dsimp only
  unfold pythonDiv
  rw [if_neg (fun hd : (1 + mr) ^ lt - 1 = 0 =>
    h1 (by linarith [sub_eq_zero.mp hd]))]
  exact ⟨_, rfl⟩

/-- A `ValueError` out of `generate_amortization_schedule` can only be
the pandas column-length mismatch: the payment computation succeeded and
the term was non-positive. -/
theorem gen_valueError_inv (P rate : ℚ) (lt : ℤ) (msg : String)
    (h : generate_amortization_schedule P rate lt
      = .error (.valueError msg)) :
    (∃ pay, paymentCalc P (rate / 100 / 12) lt = .ok pay) ∧ lt ≤ 0 := by
  unfold generate_amortization_schedule at h
  cases hp : paymentCalc P (rate / 100 / 12) lt with
  | error e' =>
    simp only [hp] at h
    injection h with h'
    have hz := paymentCalc_error_char _ _ _ _ hp
    rw [hz] at h'
    exact PyErr.noConfusion h'
  | ok pay =>
    simp only [hp] at h
    by_cases hlt : lt ≤ 0
    · exact ⟨⟨pay, rfl⟩, hlt⟩
    · rw [if_neg hlt] at h
      exact Except.noConfusion h

theorem gen_neg_term_error (P rate : ℚ) (lt : ℤ)
    (hmr : rate / 100 / 12 ≠ 0) (hb : 1 + rate / 100 / 12 ≠ 0)
    (h1 : (1 + rate / 100 / 12) ^ lt ≠ 1) (hlt : lt ≤ 0) :
    generate_amortization_schedule P rate lt =
      .error (.valueError "All arrays must be of the same length") := by
  obtain ⟨v, hv⟩ := paymentCalc_ok_of P _ lt hmr hb h1
  unfold generate_amortization_schedule
  simp only [hv]
  rw [if_pos hlt]

theorem zpow_eq_one_cases (x : ℚ) (n : ℤ) (hn : n ≠ 0)
    (h : x ^ n = 1) : x = 1 ∨ (x = -1 ∧ Even n) := by
  rcases lt_trichotomy n 0 with hneg | rfl | hpos
  · have h' : x ^ (-n) = 1 := by
      rw [zpow_neg, h, inv_one]
    have hnat : x ^ ((-n).toNat) = 1 := by
      rw [← zpow_natCast, Int.toNat_of_nonneg (by omega)]
      exact h'
    rcases (pow_eq_one_iff_of_ne_zero
        (by omega : (-n).toNat ≠ 0)).mp hnat with h1 | ⟨h1, h2⟩
    · exact Or.inl h1
    · refine Or.inr ⟨h1, ?_⟩
      rw [Int.even_iff]
      rw [Nat.even_iff] at h2
      omega
  · exact absurd rfl hn
  · have hnat : x ^ (n.toNat) = 1 := by
      rw [← zpow_natCast, Int.toNat_of_nonneg (by omega)]
      exact h
    rcases (pow_eq_one_iff_of_ne_zero
        (by omega : n.toNat ≠ 0)).mp hnat with h1 | ⟨h1, h2⟩
    · exact Or.inl h1
    · refine Or.inr ⟨h1, ?_⟩
      rw [Int.even_iff]
      rw [Nat.even_iff] at h2
      omega

theorem base_eq_zero_iff (ir : ℚ) : 1 + ir / 100 / 12 = 0 ↔ ir = -1200 := by
  constructor <;> intro h <;> linarith

theorem base_eq_neg_one_iff (ir : ℚ) :
    1 + ir / 100 / 12 = -1 ↔ ir = -2400 := by
  constructor <;> intro h <;> linarith

/-- C2 (amended): `calculate_advance` surfaces a client error
(400-equivalent, carrying the offending `ValueError` message) exactly
when the pay frequency is not one of Weekly / Bi-Weekly / Monthly /
Annually, or when a negative loan term reaches the amortization step
(approved request, truthy loan fields, amortization or CSV export
requested) with `interest_rate` outside the degenerate values: at rate
−1200% (`0.0 ** negative`) or −2400% with an even term (zero payment
denominator) the code instead raises `ZeroDivisionError`, surfaced as an
internal error (500), not a client error. A zero loan term is falsy and
never reaches the division; in this exact-rational model no NaN or
infinity can be produced. -/
theorem C2_client_error_iff (db : LedgerState) (fid now : String)
    (req : AdvanceRequest) (e : Bool) :
    (∃ msg, calculate_advance db fid now req e = .error (.badRequest msg))
    ↔ (¬ validFreq req.pay_frequency ∨
      ∃ m la ir lt,
        convert_to_monthly_salary req.gross_salary req.pay_frequency
          = .ok m ∧
        1000 ≤ m ∧ req.advance_amount ≤ m * 0.5 ∧
        loanFields req = some (la, ir, lt) ∧
        (req.include_amortization = true ∨ e = true) ∧
        lt < 0 ∧ ir ≠ -1200 ∧ ¬ (ir = -2400 ∧ Even lt)) := by
  constructor
  · rintro ⟨msg, hrun⟩
    unfold calculate_advance at hrun
    cases hconv : convert_to_monthly_salary req.gross_salary
        req.pay_frequency with
    | error err =>
      left
      intro hv
      obtain ⟨m, hm⟩ := convert_valid req.gross_salary _ hv
      rw [hconv] at hm
      exact Except.noConfusion hm
    | ok m =>
      right
      simp only [hconv] at hrun
      by_cases hm : m < 1000
      · rw [if_pos hm] at hrun
        exact Except.noConfusion hrun
      rw [if_neg hm] at hrun
      by_cases ha : req.advance_amount ≤ m * 0.5
      swap
      · rw [if_neg ha] at hrun
        exact Except.noConfusion hrun
      rw [if_pos ha] at hrun
      cases hlf : loanFields req with
      | none =>
        simp only [hlf] at hrun
        unfold approvedResult at hrun
        exact Except.noConfusion hrun
      | some trip =>
        obtain ⟨la, ir, lt⟩ := trip
        simp only [hlf] at hrun
        obtain ⟨-, -, -, -, hir0, hlt0⟩ := loanFields_some_inv _ _ _ _ hlf
        cases hci : calculate_compound_interest la ir lt with
        | error e2 =>
          simp only [hci] at hrun
          obtain ⟨hz, -, -⟩ := ci_error_char _ _ _ _ hci
          subst hz
          injection hrun with h'
          exact ApiError.noConfusion h'
        | ok tr =>
          simp only [hci] at hrun
          by_cases hia : (req.include_amortization || e) = true
          swap
          · rw [if_neg hia] at hrun
            unfold approvedResult at hrun
            exact Except.noConfusion hrun
          rw [if_pos hia] at hrun
          cases hgen : generate_amortization_schedule la ir lt with
          | ok sched =>
            simp only [hgen] at hrun
            by_cases hec : e = true
            · rw [if_pos hec] at hrun
              exact Except.noConfusion hrun
            · rw [if_neg hec] at hrun
              unfold approvedResult at hrun
              exact Except.noConfusion hrun
          | error e3 =>
            simp only [hgen] at hrun
            injection hrun with h'
            cases e3 with
            | zeroDivisionError => exact ApiError.noConfusion h'
            | valueError m3 =>
              obtain ⟨⟨pay, hpay⟩, hle⟩ := gen_valueError_inv _ _ _ _ hgen
              have hltneg : lt < 0 := by omega
              have hbase : 1 + ir / 100 / 12 ≠ 0 := fun h0 =>
                (ci_ok_not_degenerate _ _ _ _ hci) ⟨h0, hltneg⟩
              have hmr : ir / 100 / 12 ≠ 0 := fun h0 => hir0 (by linarith)
              have hden := paymentCalc_ok_den _ _ _ _ hmr hpay
              refine ⟨m, la, ir, lt, rfl, not_lt.mp hm, ha, rfl,
                by simpa using hia, hltneg, ?_, ?_⟩
              · intro h1200
                exact hbase ((base_eq_zero_iff ir).mpr h1200)
              · rintro ⟨h2400, heven⟩
                apply hden
                rw [(base_eq_neg_one_iff ir).mpr h2400]
                exact heven.neg_one_zpow
  · rintro (hinv |
      ⟨m, la, ir, lt, hconv, hm, ha, hlf, hia, hlt, hir1200, h2400⟩)
    · refine ⟨"Invalid pay_frequency", ?_⟩
      unfold calculate_advance
      simp only [convert_invalid req.gross_salary _ hinv]
      rfl
    · obtain ⟨-, -, -, -, hir0, hlt0⟩ := loanFields_some_inv _ _ _ _ hlf
      have hbase : 1 + ir / 100 / 12 ≠ 0 := fun h0 =>
        hir1200 ((base_eq_zero_iff ir).mp h0)
      have hmr : ir / 100 / 12 ≠ 0 := fun h0 => hir0 (by linarith)
      have hpow : (1 + ir / 100 / 12) ^ lt ≠ 1 := by
        intro h1
        rcases zpow_eq_one_cases _ lt hlt0 h1 with hx | ⟨hx, heven⟩
        · exact hmr (by linarith)
        · exact h2400 ⟨(base_eq_neg_one_iff ir).mp hx, heven⟩
      refine ⟨"All arrays must be of the same length", ?_⟩
      unfold calculate_advance
      simp only [hconv]
      rw [if_neg (not_lt.mpr hm), if_pos ha]
      simp only [hlf]
      rw [ci_ok_char la ir lt (fun hc => hbase hc.1)]
      dsimp only
      rw [if_pos (by simpa using hia : (req.include_amortization || e) = true)]
      rw [gen_neg_term_error la ir lt hmr hbase hpow (by omega)]
      rfl

section

attribute [local semireducible] Rat.mul Rat.add Rat.sub Rat.div Rat.inv Rat.neg Rat.blt Rat.floor Rat.ofScientific

/-- C2 counterexample: an eligible, approved request asking for
amortization with loan_term = -2 (non-positive, reaching the division
step) and interest_rate = -1200 makes `calculate_compound_interest`
evaluate `0.0 ** -2`, raising `ZeroDivisionError`; the endpoint surfaces
this as a 500 internal error, not as the client-error
`InvalidInputError` the claim requires for every non-positive loan term
reaching the division step. -/
theorem C2_degenerate_rate_internal_error :
    calculate_advance [] "L2" "T2"
      ⟨3000, "Monthly", 0, some 100, some (-1200), some (-2), true⟩ false
      = .error .internalError := by
  decide

end
